import Mathlib

/-
Verification of src/src/firejail/landlock.c (firejail Landlock support).

Shallow embedding conventions:
- The kernel, the filesystem and libc are modelled by an environment record
  `Env` of pure functions giving the outcome of each external call
  (uname release string, access(2) existence checks, open(2) descriptors,
  and the return values of the three Landlock syscalls).  uname(2) itself is
  assumed to succeed (its failure path only calls errExit).
- The single piece of module state, the static `rset_fd`, is threaded
  explicitly as an `Int`.  The global configuration `cfg` (directive list
  `lprofile` and `homedir`) is the record `Cfg`.
- Every modelled function returns an `Out` record: the C return value, the
  new `rset_fd`, the list of observable events (syscalls and diagnostics) in
  program order, and a `term` flag that is true when the process terminated
  (exit(1) on an unparseable kernel version, or assert(0) on an unknown
  directive keyword).
- C `unsigned` arithmetic is modelled on `Nat` with explicit reduction
  modulo 2 ^ 32.
- sscanf(release, "%u.%u", ...) is modelled for inputs without sign
  characters: skip whitespace, read a non-empty digit run (value taken
  modulo 2 ^ 32), require a literal dot, skip whitespace, read a second
  non-empty digit run.  The result counts the conversions performed.
-/

/- Access bits from linux/landlock.h (kernel ABI). -/

def LANDLOCK_ACCESS_FS_EXECUTE : Nat := 1 <<< 0

def LANDLOCK_ACCESS_FS_WRITE_FILE : Nat := 1 <<< 1

def LANDLOCK_ACCESS_FS_READ_FILE : Nat := 1 <<< 2

def LANDLOCK_ACCESS_FS_READ_DIR : Nat := 1 <<< 3

def LANDLOCK_ACCESS_FS_REMOVE_DIR : Nat := 1 <<< 4

def LANDLOCK_ACCESS_FS_REMOVE_FILE : Nat := 1 <<< 5

def LANDLOCK_ACCESS_FS_MAKE_CHAR : Nat := 1 <<< 6

def LANDLOCK_ACCESS_FS_MAKE_DIR : Nat := 1 <<< 7

def LANDLOCK_ACCESS_FS_MAKE_REG : Nat := 1 <<< 8

def LANDLOCK_ACCESS_FS_MAKE_SOCK : Nat := 1 <<< 9

def LANDLOCK_ACCESS_FS_MAKE_FIFO : Nat := 1 <<< 10

def LANDLOCK_ACCESS_FS_MAKE_BLOCK : Nat := 1 <<< 11

def LANDLOCK_ACCESS_FS_MAKE_SYM : Nat := 1 <<< 12

/- Kernel version probe: old_kernel, landlock.c lines 33-51. -/

/-- Accumulator pass of the digit-run value read by sscanf %u. -/
def digitsValAux (acc : Nat) : List Char → Nat
  | [] => acc
  | c :: cs => digitsValAux (acc * 10 + (c.toNat - 48)) cs

/-- One %u conversion: skip whitespace, read a non-empty digit run
(value modulo 2 ^ 32), return the value and the remaining input. -/
def scanUInt (s : List Char) : Option (Nat × List Char) :=
  let s1 := s.dropWhile Char.isWhitespace
  let ds := s1.takeWhile Char.isDigit
  if ds.isEmpty then none
  else some (digitsValAux 0 ds % 2 ^ 32, s1.dropWhile Char.isDigit)

/-- Model of sscanf(s, "%u.%u", &major, &minor) succeeding with 2
conversions: `some (major, minor)` when both conversions succeed,
`none` when fewer than 2 conversions succeed. -/
def sscanf_u_dot_u (s : String) : Option (Nat × Nat) :=
  match scanUInt s.data with
  | none => none
  | some (major, rest) =>
    match rest with
    | '.' :: rest2 =>
      (match scanUInt rest2 with
       | none => none
       | some (minor, _) => some (major, minor))
    | _ => none

/-- Possible outcomes of old_kernel: fatal = fprintf + exit(1);
old = return 1 (kernel below threshold); ok = return 0. -/
inductive ProbeResult where
  | fatal
  | old
  | ok
deriving DecidableEq

/-- old_kernel (landlock.c lines 34-51): parse the release string as
major.minor, exit(1) if that fails, else compare the packed value
(major << 8) + minor, in unsigned 32-bit arithmetic, with (6 << 8) + 1. -/
def old_kernel (release : String) : ProbeResult :=
  match sscanf_u_dot_u release with
  | none => ProbeResult.fatal
  | some (major, minor) =>
    let version := ((major <<< 8) + minor) % 2 ^ 32
    if version < (6 <<< 8) + 1 then ProbeResult.old else ProbeResult.ok

/- Observable events and outputs. -/

/-- Observable actions of the module, in program order: syscalls issued to
the kernel and diagnostics written to stderr. -/
inductive Event where
  | warnOldKernel
  | fatalVersion
  | assertFail
  | createRuleset (mask : Nat) (ret : Int)
  | openPath (path : String) (ret : Int)
  | addRule (rsetFd : Int) (parentFd : Int) (mask : Nat) (ret : Int)
  | closeFd (fd : Int)
  | errRule (path : String)
  | errBasic
  | prctlNoNewPrivs
  | restrictSelf (fd : Int) (flags : Nat) (ret : Int)
deriving DecidableEq

/-- Result of a modelled call: C return value, new value of the static
rset_fd, event trace, and whether the process terminated. -/
structure Out (α : Type) where
  ret : α
  fd : Int
  tr : List Event
  term : Bool
deriving DecidableEq

/-- External world: outcomes of every kernel/libc call the module makes. -/
structure Env where
  release : String
  pathExists : String → Bool
  openFd : String → Int
  createFd : Int
  addRuleRet : Int → Int → Nat → Int
  restrictRet : Int → Nat → Int
  uid : Nat

/-- The part of the global firejail cfg that landlock.c uses. -/
structure Cfg where
  lprofile : List String
  homedir : String
deriving DecidableEq

/- Ruleset creation and the per-class rule helpers. -/

/-- Mask of handled_access_fs in ll_create_full_ruleset
(landlock.c lines 76-83). -/
def ll_full_mask : Nat :=
  LANDLOCK_ACCESS_FS_READ_FILE ||| LANDLOCK_ACCESS_FS_READ_DIR |||
  LANDLOCK_ACCESS_FS_WRITE_FILE ||| LANDLOCK_ACCESS_FS_REMOVE_FILE |||
  LANDLOCK_ACCESS_FS_REMOVE_DIR ||| LANDLOCK_ACCESS_FS_MAKE_CHAR |||
  LANDLOCK_ACCESS_FS_MAKE_DIR ||| LANDLOCK_ACCESS_FS_MAKE_REG |||
  LANDLOCK_ACCESS_FS_MAKE_SOCK ||| LANDLOCK_ACCESS_FS_MAKE_FIFO |||
  LANDLOCK_ACCESS_FS_MAKE_BLOCK ||| LANDLOCK_ACCESS_FS_MAKE_SYM |||
  LANDLOCK_ACCESS_FS_EXECUTE

/-- ll_create_full_ruleset: issues landlock_create_ruleset with
ll_full_mask; the returned descriptor is given by the environment. -/
def ll_create_full_ruleset (env : Env) : Int := env.createFd

/-- Common body of ll_read / ll_write / ll_special / ll_exec
(landlock.c lines 85-161), parameterized by the allowed_access mask:
warn and return 1 on an old kernel; lazily create the full ruleset when
rset_fd is -1; open the path (result unchecked), submit the path-beneath
rule, close the positioning descriptor, return the add-rule result. -/
def ll_rule_add (mask : Nat) (env : Env) (fd : Int) (path : String) : Out Int :=
  match old_kernel env.release with
  | ProbeResult.fatal => ⟨0, fd, [Event.fatalVersion], true⟩
  | ProbeResult.old => ⟨1, fd, [Event.warnOldKernel], false⟩
  | ProbeResult.ok =>
    let fd1 := if fd = -1 then ll_create_full_ruleset env else fd
    let tr1 : List Event :=
      if fd = -1 then [Event.createRuleset ll_full_mask (ll_create_full_ruleset env)] else []
    let allowed_fd := env.openFd path
    let result := env.addRuleRet fd1 allowed_fd mask
    ⟨result, fd1,
     tr1 ++ [Event.openPath path allowed_fd,
             Event.addRule fd1 allowed_fd mask result,
             Event.closeFd allowed_fd], false⟩

/-- ll_read (landlock.c lines 85-102). -/
def ll_read (env : Env) (fd : Int) (path : String) : Out Int :=
  ll_rule_add (LANDLOCK_ACCESS_FS_READ_FILE ||| LANDLOCK_ACCESS_FS_READ_DIR)
    env fd path

/-- ll_write (landlock.c lines 104-123). -/
def ll_write (env : Env) (fd : Int) (path : String) : Out Int :=
  ll_rule_add
    (LANDLOCK_ACCESS_FS_WRITE_FILE ||| LANDLOCK_ACCESS_FS_REMOVE_FILE |||
     LANDLOCK_ACCESS_FS_REMOVE_DIR ||| LANDLOCK_ACCESS_FS_MAKE_CHAR |||
     LANDLOCK_ACCESS_FS_MAKE_DIR ||| LANDLOCK_ACCESS_FS_MAKE_REG |||
     LANDLOCK_ACCESS_FS_MAKE_SYM)
    env fd path

/-- ll_special (landlock.c lines 125-142). -/
def ll_special (env : Env) (fd : Int) (path : String) : Out Int :=
  ll_rule_add
    (LANDLOCK_ACCESS_FS_MAKE_SOCK ||| LANDLOCK_ACCESS_FS_MAKE_FIFO |||
     LANDLOCK_ACCESS_FS_MAKE_BLOCK)
    env fd path

/-- ll_exec (landlock.c lines 144-161). -/
def ll_exec (env : Env) (fd : Int) (path : String) : Out Int :=
  ll_rule_add LANDLOCK_ACCESS_FS_EXECUTE env fd path

/-- The four per-class helpers, as dispatched through the fnc pointer in
ll_restrict and in the baseline chain. -/
inductive HelperKind where
  | read
  | write
  | special
  | exec
deriving DecidableEq

/-- Dispatch a HelperKind to the corresponding helper function. -/
def runHelper : HelperKind → Env → Int → String → Out Int
  | HelperKind.read => ll_read
  | HelperKind.write => ll_write
  | HelperKind.special => ll_special
  | HelperKind.exec => ll_exec

/- Baseline policy: ll_basic_system, landlock.c lines 163-220. -/

/-- The short-circuiting OR-chain of helper calls in ll_basic_system
(landlock.c lines 189-216): run the items left to right, stopping after
the first call that returns non-zero; the Bool result records whether a
call failed (the value of the C condition). -/
def runChain (env : Env) (fd : Int) : List (HelperKind × String) → Out Bool
  | [] => ⟨false, fd, [], false⟩
  | (k, p) :: rest =>
    let o := runHelper k env fd p
    if o.term then ⟨false, o.fd, o.tr, true⟩
    else if o.ret ≠ 0 then ⟨true, o.fd, o.tr, false⟩
    else
      let o2 := runChain env o.fd rest
      ⟨o2.ret, o2.fd, o.tr ++ o2.tr, o2.term⟩

/-- The hard-coded item list of the ll_basic_system OR-chain, in source
order (the duplicate /bin entry is kept). -/
def basicChainItems (rundir : String) : List (HelperKind × String) :=
  [(HelperKind.read, "/"),
   (HelperKind.special, "/"),
   (HelperKind.write, "/tmp"),
   (HelperKind.write, "/dev"),
   (HelperKind.write, "/run/shm"),
   (HelperKind.write, rundir),
   (HelperKind.exec, "/opt"),
   (HelperKind.exec, "/bin"),
   (HelperKind.exec, "/sbin"),
   (HelperKind.exec, "/bin"),
   (HelperKind.exec, "/lib"),
   (HelperKind.exec, "/lib32"),
   (HelperKind.exec, "/libx32"),
   (HelperKind.exec, "/lib64"),
   (HelperKind.exec, "/usr/bin"),
   (HelperKind.exec, "/usr/sbin"),
   (HelperKind.exec, "/usr/games"),
   (HelperKind.exec, "/usr/lib"),
   (HelperKind.exec, "/usr/lib32"),
   (HelperKind.exec, "/usr/libx32"),
   (HelperKind.exec, "/usr/lib64"),
   (HelperKind.exec, "/usr/local/bin"),
   (HelperKind.exec, "/usr/local/sbin"),
   (HelperKind.exec, "/usr/local/games"),
   (HelperKind.exec, "/usr/local/lib"),
   (HelperKind.exec, "/run/firejail")]

/-- The allowed_access mask of the home-directory rule in ll_basic_system
(landlock.c lines 176-180). -/
def ll_home_mask : Nat :=
  LANDLOCK_ACCESS_FS_READ_FILE ||| LANDLOCK_ACCESS_FS_READ_DIR |||
  LANDLOCK_ACCESS_FS_WRITE_FILE ||| LANDLOCK_ACCESS_FS_REMOVE_FILE |||
  LANDLOCK_ACCESS_FS_REMOVE_DIR ||| LANDLOCK_ACCESS_FS_MAKE_CHAR |||
  LANDLOCK_ACCESS_FS_MAKE_DIR ||| LANDLOCK_ACCESS_FS_MAKE_REG |||
  LANDLOCK_ACCESS_FS_MAKE_SYM

/-- ll_basic_system (landlock.c lines 163-220): warn and return on an old
kernel; lazily create the ruleset; add the home-directory rule (failure
only logged); then run the OR-chain on the hard-coded items with the
per-uid runtime directory, logging one error if the chain failed. -/
def ll_basic_system (env : Env) (cfg : Cfg) (fd : Int) : Out Unit :=
  match old_kernel env.release with
  | ProbeResult.fatal => ⟨(), fd, [Event.fatalVersion], true⟩
  | ProbeResult.old => ⟨(), fd, [Event.warnOldKernel], false⟩
  | ProbeResult.ok =>
    let fd1 := if fd = -1 then ll_create_full_ruleset env else fd
    let tr1 : List Event :=
      if fd = -1 then [Event.createRuleset ll_full_mask (ll_create_full_ruleset env)] else []
    let home_fd := env.openFd cfg.homedir
    let rHome := env.addRuleRet fd1 home_fd ll_home_mask
    let trHome : List Event :=
      [Event.openPath cfg.homedir home_fd,
       Event.addRule fd1 home_fd ll_home_mask rHome] ++
      (if rHome ≠ 0 then [Event.errBasic] else []) ++
      [Event.closeFd home_fd]
    let rundir := "/run/user/" ++ toString env.uid
    let oc := runChain env fd1 (basicChainItems rundir)
    let trChain :=
      oc.tr ++ (if oc.term then [] else if oc.ret then [Event.errBasic] else [])
    ⟨(), oc.fd, tr1 ++ trHome ++ trChain, oc.term⟩

/- Directive dispatch and commit: ll_restrict, landlock.c lines 222-271. -/

/-- strncmp(data, lit, n) == 0 for a literal lit of length n: the first n
characters of data (fewer if data is shorter) equal lit. -/
def cstrStartsWith (data lit : String) : Bool :=
  data.data.take lit.length == lit.data

/-- Drop the first n characters of a C string (pointer arithmetic
data + n); dropping past the end yields the empty string. -/
def cstrDrop (data : String) (n : Nat) : String :=
  String.mk (data.data.drop n)

/-- The keyword classification of ll_restrict (landlock.c lines 233-250):
prefix-match the four landlock keywords in source order, yielding the
helper to call and the path suffix fname, or none for the assert(0) arm. -/
def classify (data : String) : Option (HelperKind × String) :=
  if cstrStartsWith data "landlock.read" then
    some (HelperKind.read, cstrDrop data 14)
  else if cstrStartsWith data "landlock.write" then
    some (HelperKind.write, cstrDrop data 15)
  else if cstrStartsWith data "landlock.special" then
    some (HelperKind.special, cstrDrop data 17)
  else if cstrStartsWith data "landlock.execute" then
    some (HelperKind.exec, cstrDrop data 17)
  else
    none

/-- The while loop of ll_restrict (landlock.c lines 228-258): walk the
directive list front to back; assert(0) on an unknown keyword; when the
extracted path exists, call the matching helper and log an error if it
returns non-zero; otherwise fall through to the next entry. -/
def ll_restrict_loop (env : Env) (fd : Int) : List String → Out Unit
  | [] => ⟨(), fd, [], false⟩
  | data :: rest =>
    match classify data with
    | none => ⟨(), fd, [Event.assertFail], true⟩
    | some (k, fname) =>
      if env.pathExists fname then
        let o := runHelper k env fd fname
        if o.term then ⟨(), o.fd, o.tr, true⟩
        else
          let tr1 := o.tr ++ (if o.ret ≠ 0 then [Event.errRule fname] else [])
          let o2 := ll_restrict_loop env o.fd rest
          ⟨(), o2.fd, tr1 ++ o2.tr, o2.term⟩
      else
        ll_restrict_loop env fd rest

/-- ll_restrict (landlock.c lines 222-271): return 0 with a warning on an
old kernel; walk the directive list; return 0 if no ruleset descriptor
exists; otherwise set no-new-privs and call landlock_restrict_self,
returning its error without closing on failure, and closing the
descriptor (without resetting the rset_fd variable) on success. -/
def ll_restrict (env : Env) (cfg : Cfg) (fd : Int) (flags : Nat) : Out Int :=
  match old_kernel env.release with
  | ProbeResult.fatal => ⟨0, fd, [Event.fatalVersion], true⟩
  | ProbeResult.old => ⟨0, fd, [Event.warnOldKernel], false⟩
  | ProbeResult.ok =>
    let o := ll_restrict_loop env fd cfg.lprofile
    if o.term then ⟨0, o.fd, o.tr, true⟩
    else if o.fd = -1 then ⟨0, o.fd, o.tr, false⟩
    else
      let r := env.restrictRet o.fd flags
      if r ≠ 0 then
        ⟨r, o.fd,
         o.tr ++ [Event.prctlNoNewPrivs, Event.restrictSelf o.fd flags r],
         false⟩
      else
        ⟨0, o.fd,
         o.tr ++ [Event.prctlNoNewPrivs, Event.restrictSelf o.fd flags r,
                  Event.closeFd o.fd],
         false⟩

/-- ll_add_profile (landlock.c lines 273-286): on an old kernel return
without storing; otherwise push the directive string onto the front of
cfg.lprofile.  The Bool is true when the process terminated (unparseable
kernel version).  malloc and strdup are assumed to succeed (their failure
paths only call errExit). -/
def ll_add_profile (env : Env) (cfg : Cfg) (data : String) : Cfg × Bool :=
  match old_kernel env.release with
  | ProbeResult.fatal => (cfg, true)
  | ProbeResult.old => (cfg, false)
  | ProbeResult.ok => ({ cfg with lprofile := data :: cfg.lprofile }, false)

/-- A sequence of ll_add_profile calls, first directive first. -/
def addProfiles (env : Env) (cfg : Cfg) : List String → Cfg
  | [] => cfg
  | d :: ds => addProfiles env (ll_add_profile env cfg d).1 ds

/- Trace projections. -/

/-- Paths passed to open(2), in order: one per helper invocation. -/
def openedPaths (tr : List Event) : List String :=
  tr.filterMap fun e =>
    match e with
    | Event.openPath p _ => some p
    | _ => none

/-- Masks of the landlock_create_ruleset calls in a trace, in order. -/
def createdRulesets (tr : List Event) : List Nat :=
  tr.filterMap fun e =>
    match e with
    | Event.createRuleset m _ => some m
    | _ => none

/-- allowed_access masks of the landlock_add_rule calls in a trace. -/
def ruleMasks (tr : List Event) : List Nat :=
  tr.filterMap fun e =>
    match e with
    | Event.addRule _ _ m _ => some m
    | _ => none

/-- The path a directive opens during the ll_restrict walk: its extracted
fname when the keyword is recognized and the path exists, none otherwise. -/
def directiveOpened (env : Env) (d : String) : Option String :=
  match classify d with
  | some (_, fname) => if env.pathExists fname then some fname else none
  | none => none

/-- Modelled from the spec: the support predicate the specification states
for isSupported, namely that (major, minor) is at least (6, 1) in
lexicographic version order.  Used only to compare with old_kernel. -/
def isSupported_spec (major minor : Nat) : Bool :=
  decide (6 < major ∨ (major = 6 ∧ 1 ≤ minor))

/-- The allowed_access mask each helper kind submits (the literal masks of
ll_read, ll_write, ll_special, ll_exec). -/
def helperMask : HelperKind → Nat
  | HelperKind.read =>
    LANDLOCK_ACCESS_FS_READ_FILE ||| LANDLOCK_ACCESS_FS_READ_DIR
  | HelperKind.write =>
    LANDLOCK_ACCESS_FS_WRITE_FILE ||| LANDLOCK_ACCESS_FS_REMOVE_FILE |||
    LANDLOCK_ACCESS_FS_REMOVE_DIR ||| LANDLOCK_ACCESS_FS_MAKE_CHAR |||
    LANDLOCK_ACCESS_FS_MAKE_DIR ||| LANDLOCK_ACCESS_FS_MAKE_REG |||
    LANDLOCK_ACCESS_FS_MAKE_SYM
  | HelperKind.special =>
    LANDLOCK_ACCESS_FS_MAKE_SOCK ||| LANDLOCK_ACCESS_FS_MAKE_FIFO |||
    LANDLOCK_ACCESS_FS_MAKE_BLOCK
  | HelperKind.exec => LANDLOCK_ACCESS_FS_EXECUTE

/-- The add-rule result of a chain item run on a supported kernel from
ruleset state fd: the ruleset descriptor every call in the chain actually
uses is (if fd = -1 then env.createFd else fd), because only the first
call can change it and the value is then stable. -/
def chainRet (env : Env) (fd : Int) (item : HelperKind × String) : Int :=
  env.addRuleRet (if fd = -1 then env.createFd else fd)
    (env.openFd item.2) (helperMask item.1)

/-- Recognizer for the basic-policy error diagnostic event. -/
def isErrBasic : Event → Bool
  | Event.errBasic => true
  | _ => false

/-- Number of basic-policy error diagnostics in a trace. -/
def errBasicCount (tr : List Event) : Nat := (tr.filter isErrBasic).length

/- Concrete environments for witnesses and counterexamples. -/

/-- A supported kernel (6.1.0), all paths exist, open returns 4, ruleset
creation returns descriptor 3, every syscall succeeds. -/
def envOk : Env := ⟨"6.1.0", fun _ => true, fun _ => 4, 3, fun _ _ _ => 0, fun _ _ => 0, 1000⟩

/-- Like envOk but every landlock_add_rule call fails with -1. -/
def envFail : Env := ⟨"6.1.0", fun _ => true, fun _ => 4, 3, fun _ _ _ => -1, fun _ _ => 0, 1000⟩

/-- Like envOk but no path exists. -/
def envMiss : Env := ⟨"6.1.0", fun _ => false, fun _ => 4, 3, fun _ _ _ => 0, fun _ _ => 0, 1000⟩

/-- Like envOk but open(2) always fails with -1. -/
def envNoOpen : Env := ⟨"6.1.0", fun _ => true, fun _ => -1, 3, fun _ _ _ => 0, fun _ _ => 0, 1000⟩

/-- Like envOk but landlock_restrict_self fails with -1. -/
def envNoRestrict : Env := ⟨"6.1.0", fun _ => true, fun _ => 4, 3, fun _ _ _ => 0, fun _ _ => -1, 1000⟩

/-- Like envOk, but opening /tmp yields descriptor 7 and adding a rule
with parent descriptor 7 fails with -1, so exactly the third item of the
baseline chain fails. -/
def envMid : Env :=
  ⟨"6.1.0", fun _ => true, fun p => if p = "/tmp" then 7 else 4, 3,
   fun _ parent _ => if parent = 7 then -1 else 0, fun _ _ => 0, 1000⟩

/-- An empty directive list with home directory /home/u. -/
def cfgHome : Cfg := ⟨[], "/home/u"⟩

/- Helper lemmas. -/

/-- Evaluation of the common helper body on a supported kernel. -/
theorem ll_rule_add_eval (mask : Nat) (env : Env) (fd : Int) (p : String)
    (h : old_kernel env.release = ProbeResult.ok) :
    ll_rule_add mask env fd p =
      if fd = -1 then
        ⟨env.addRuleRet env.createFd (env.openFd p) mask, env.createFd,
         [Event.createRuleset ll_full_mask env.createFd,
          Event.openPath p (env.openFd p),
          Event.addRule env.createFd (env.openFd p) mask
            (env.addRuleRet env.createFd (env.openFd p) mask),
          Event.closeFd (env.openFd p)], false⟩
      else
        ⟨env.addRuleRet fd (env.openFd p) mask, fd,
         [Event.openPath p (env.openFd p),
          Event.addRule fd (env.openFd p) mask
            (env.addRuleRet fd (env.openFd p) mask),
          Event.closeFd (env.openFd p)], false⟩ := by
  unfold ll_rule_add
  rw [h]
  by_cases hfd : fd = -1 <;> simp [hfd, ll_create_full_ruleset]

/-- Decomposition of old_kernel when the release string parses. -/
theorem old_kernel_parsed (s : String) (major minor : Nat)
    (hp : sscanf_u_dot_u s = some (major, minor)) :
    old_kernel s =
      (if ((major <<< 8) + minor) % 2 ^ 32 < (6 <<< 8) + 1
       then ProbeResult.old else ProbeResult.ok) := by
  unfold old_kernel
  rw [hp]

/- Claim C4 (corrected). -/

/-- Claim C4 counterexample: the release string 5.257 parses as
major 5, minor 257, is strictly below 6.1 in lexicographic version order,
yet old_kernel reports the kernel as supported, because the packed
comparison (major << 8) + minor wraps the minor field into the major
field. -/
theorem C4_counterexample :
    sscanf_u_dot_u "5.257" = some (5, 257) ∧
    old_kernel "5.257" = ProbeResult.ok ∧
    isSupported_spec 5 257 = false := by
  exact ⟨by decide, by decide, by decide⟩

/-- Claim C4 (amended): for every release string parsing as major.minor,
old_kernel reports supported if and only if the packed 32-bit value
(major << 8) + minor is at least (6 << 8) + 1; whenever minor < 2^8 and
major < 2^24 (all real kernel versions), this coincides with the
lexicographic comparison (major, minor) >= (6, 1). -/
theorem C4_probe_packed_version_threshold (s : String) (major minor : Nat)
    (hp : sscanf_u_dot_u s = some (major, minor)) :
    (old_kernel s = ProbeResult.ok ↔
      (6 <<< 8) + 1 ≤ ((major <<< 8) + minor) % 2 ^ 32) ∧
    (minor < 2 ^ 8 → major < 2 ^ 24 →
      (old_kernel s = ProbeResult.ok ↔ isSupported_spec major minor = true)) := by
  have h1 := old_kernel_parsed s major minor hp
  have hs : (major <<< 8) = major * 2 ^ 8 := Nat.shiftLeft_eq major 8
  have ht : ((6 : Nat) <<< 8) = 6 * 2 ^ 8 := Nat.shiftLeft_eq 6 8
  constructor
  · rw [h1]
    split
    · rename_i hv
      simp only [ht] at hv ⊢
      constructor
      · intro hcontra; exact absurd hcontra (by simp)
      · intro hge; omega
    · rename_i hv
      simp only [ht] at hv ⊢
      constructor
      · intro _; omega
      · intro _; trivial
  · intro hmin hmaj
    have hlt : (major <<< 8) + minor < 2 ^ 32 := by
      rw [hs]; omega
    have hmod : ((major <<< 8) + minor) % 2 ^ 32 = major * 2 ^ 8 + minor := by
      rw [Nat.mod_eq_of_lt hlt, hs]
    rw [h1, hmod]
    unfold isSupported_spec
    split
    · rename_i hv
      simp only [ht] at hv
      constructor
      · intro hcontra; exact absurd hcontra (by simp)
      · intro hspec
        have := of_decide_eq_true hspec
        omega
    · rename_i hv
      simp only [ht] at hv
      constructor
      · intro _
        apply decide_eq_true
        omega
      · intro _; rfl

/-- Claim C4 witness: instantiating the amended theorem at 6.2.5 shows the
probe reports supported there. -/
theorem C4_witness : old_kernel "6.2.5" = ProbeResult.ok :=
  ((C4_probe_packed_version_threshold "6.2.5" 6 2 (by decide)).2
    (by decide) (by decide)).mpr (by decide)

/- Claim C5 (confirmed). -/

/-- Claim C5: old_kernel terminates the process fatally exactly when the
release string does not parse as a leading major.minor pair, and a
parseable release below the version threshold never terminates the
process: it merely reports the kernel as unsupported. -/
theorem C5_unparseable_fatal_parseable_graceful (s : String) :
    (old_kernel s = ProbeResult.fatal ↔ sscanf_u_dot_u s = none) ∧
    (∀ major minor, sscanf_u_dot_u s = some (major, minor) →
      ((major <<< 8) + minor) % 2 ^ 32 < (6 <<< 8) + 1 →
      old_kernel s = ProbeResult.old) := by
  constructor
  · unfold old_kernel
    cases hp : sscanf_u_dot_u s with
    | none => simp
    | some mm =>
      obtain ⟨ma, mi⟩ := mm
      simp only []
      split <;> simp
  · intro major minor hp hv
    rw [old_kernel_parsed s major minor hp, if_pos hv]

/-- Claim C5 witness: the unparseable release string linux is fatal, and
the parseable below-threshold release 5.15.0 is reported unsupported
without terminating. -/
theorem C5_witness :
    old_kernel "linux" = ProbeResult.fatal ∧
    old_kernel "5.15.0" = ProbeResult.old :=
  ⟨(C5_unparseable_fatal_parseable_graceful "linux").1.mpr (by decide),
   (C5_unparseable_fatal_parseable_graceful "5.15.0").2 5 15 (by decide) (by decide)⟩

/-- Evaluation of ll_restrict on a supported kernel with an empty
directive list and an existing ruleset descriptor. -/
theorem ll_restrict_empty_eval (env : Env) (cfg : Cfg) (fd : Int) (flags : Nat)
    (hok : old_kernel env.release = ProbeResult.ok)
    (hl : cfg.lprofile = []) (hfd : fd ≠ -1) :
    ll_restrict env cfg fd flags =
      if env.restrictRet fd flags ≠ 0 then
        ⟨env.restrictRet fd flags, fd,
         [Event.prctlNoNewPrivs,
          Event.restrictSelf fd flags (env.restrictRet fd flags)], false⟩
      else
        ⟨0, fd,
         [Event.prctlNoNewPrivs,
          Event.restrictSelf fd flags (env.restrictRet fd flags),
          Event.closeFd fd], false⟩ := by
  unfold ll_restrict
  rw [hok, hl]
  simp only [ll_restrict_loop]
  by_cases hr : env.restrictRet fd flags ≠ 0 <;> simp [hfd, hr]

/- Claim C7 (confirmed). -/

/-- Claim C7: when the final landlock_restrict_self call fails,
ll_restrict returns the kernel-reported non-zero error, the rset_fd value
is unchanged and the descriptor is not closed (no close event); only on
success does it close the descriptor and return 0. -/
theorem C7_commit_failure_leaves_descriptor_open
    (env : Env) (cfg : Cfg) (fd : Int) (flags : Nat)
    (hok : old_kernel env.release = ProbeResult.ok)
    (hl : cfg.lprofile = []) (hfd : fd ≠ -1) :
    (env.restrictRet fd flags ≠ 0 →
      (ll_restrict env cfg fd flags).ret = env.restrictRet fd flags ∧
      (ll_restrict env cfg fd flags).fd = fd ∧
      Event.closeFd fd ∉ (ll_restrict env cfg fd flags).tr ∧
      Event.restrictSelf fd flags (env.restrictRet fd flags) ∈
        (ll_restrict env cfg fd flags).tr) ∧
    (env.restrictRet fd flags = 0 →
      (ll_restrict env cfg fd flags).ret = 0 ∧
      (ll_restrict env cfg fd flags).tr =
        [Event.prctlNoNewPrivs, Event.restrictSelf fd flags 0,
         Event.closeFd fd]) := by
  have he := ll_restrict_empty_eval env cfg fd flags hok hl hfd
  constructor
  · intro hr
    rw [he, if_pos hr]
    refine ⟨rfl, rfl, ?_, by simp⟩
    intro hmem
    simp only [List.mem_cons, List.not_mem_nil, or_false] at hmem
    cases hmem with
    | inl h => exact Event.noConfusion h
    | inr h => exact Event.noConfusion h
  · intro hr
    rw [he, if_neg (by simp [hr]), hr]
    exact ⟨rfl, rfl⟩

/-- Claim C7 witness: with a failing landlock_restrict_self returning -1,
ll_restrict returns -1 and the trace holds no close of descriptor 3. -/
theorem C7_witness :
    (ll_restrict envNoRestrict cfgHome 3 0).ret = envNoRestrict.restrictRet 3 0 ∧
    Event.closeFd 3 ∉ (ll_restrict envNoRestrict cfgHome 3 0).tr := by
  have h := (C7_commit_failure_leaves_descriptor_open envNoRestrict cfgHome 3 0
    (by decide) rfl (by decide)).1 (by decide)
  exact ⟨h.1, h.2.2.1⟩

/- Claim C1 (corrected). -/

/-- Claim C1 counterexample: with every syscall succeeding, a first
ll_restrict call after ll_read created ruleset descriptor 3 commits
successfully (returns 0 and closes descriptor 3), yet the second
ll_restrict call is not a no-op: it re-applies the stored directive
(opening /a again) and re-attempts the kernel restriction call on the
stale descriptor 3. -/
theorem C1_counterexample :
    (ll_restrict envOk ⟨["landlock.read /a"], "/home/u"⟩
        (ll_read envOk (-1) "/a").fd 0).ret = 0 ∧
    Event.closeFd 3 ∈ (ll_restrict envOk ⟨["landlock.read /a"], "/home/u"⟩
        (ll_read envOk (-1) "/a").fd 0).tr ∧
    openedPaths (ll_restrict envOk ⟨["landlock.read /a"], "/home/u"⟩
        (ll_restrict envOk ⟨["landlock.read /a"], "/home/u"⟩
          (ll_read envOk (-1) "/a").fd 0).fd 0).tr = ["/a"] ∧
    Event.restrictSelf 3 0 0 ∈ (ll_restrict envOk ⟨["landlock.read /a"], "/home/u"⟩
        (ll_restrict envOk ⟨["landlock.read /a"], "/home/u"⟩
          (ll_read envOk (-1) "/a").fd 0).fd 0).tr := by
  decide

/-- Claim C1 (amended): after a first ll_restrict call that committed
successfully, the rset_fd value is not reset, so a second call is not a
no-op: it runs prctl and the kernel restriction call again on the stale
descriptor, and its return value is the result of that re-attempted call
(directives, when present, are also re-walked). -/
theorem C1_second_restrict_reattempts
    (env : Env) (cfg : Cfg) (fd : Int) (flags : Nat)
    (hok : old_kernel env.release = ProbeResult.ok)
    (hl : cfg.lprofile = []) (hfd : fd ≠ -1)
    (hres : env.restrictRet fd flags = 0) :
    (ll_restrict env cfg fd flags).ret = 0 ∧
    (ll_restrict env cfg fd flags).fd = fd ∧
    (ll_restrict env cfg (ll_restrict env cfg fd flags).fd flags).tr =
      [Event.prctlNoNewPrivs, Event.restrictSelf fd flags 0,
       Event.closeFd fd] ∧
    (ll_restrict env cfg (ll_restrict env cfg fd flags).fd flags).ret =
      env.restrictRet fd flags := by
  have he : ll_restrict env cfg fd flags =
      ⟨0, fd, [Event.prctlNoNewPrivs, Event.restrictSelf fd flags 0,
               Event.closeFd fd], false⟩ := by
    rw [ll_restrict_empty_eval env cfg fd flags hok hl hfd,
        if_neg (by simp [hres]), hres]
  refine ⟨by rw [he], by rw [he], ?_, ?_⟩
  · show (ll_restrict env cfg (ll_restrict env cfg fd flags).fd flags).tr = _
    rw [he]
    show (ll_restrict env cfg fd flags).tr = _
    rw [he]
  · rw [he]
    show (ll_restrict env cfg fd flags).ret = _
    rw [he, hres]

/-- Claim C1 witness: instantiating the amended theorem with descriptor 3
and an all-succeeding environment. -/
theorem C1_witness :
    (ll_restrict envOk cfgHome 3 0).ret = 0 ∧
    (ll_restrict envOk cfgHome 3 0).fd = 3 ∧
    (ll_restrict envOk cfgHome (ll_restrict envOk cfgHome 3 0).fd 0).tr =
      [Event.prctlNoNewPrivs, Event.restrictSelf 3 0 0, Event.closeFd 3] ∧
    (ll_restrict envOk cfgHome (ll_restrict envOk cfgHome 3 0).fd 0).ret =
      envOk.restrictRet 3 0 :=
  C1_second_restrict_reattempts envOk cfgHome 3 0 (by decide) rfl
    (by decide) (by decide)

/- Claim C6 (confirmed). -/

/-- Congruence: ll_restrict depends on the configuration only through the
walk of the directive list. -/
theorem ll_restrict_eq_of_loop (env : Env) (cfg cfg2 : Cfg) (fd : Int) (flags : Nat)
    (h : ll_restrict_loop env fd cfg.lprofile = ll_restrict_loop env fd cfg2.lprofile) :
    ll_restrict env cfg fd flags = ll_restrict env cfg2 fd flags := by
  unfold ll_restrict
  cases old_kernel env.release <;> simp [h]

/-- Claim C6: a recognized directive whose path does not exist at
application time is silently skipped: the walk of the remaining entries is
unchanged (no helper call, no rule, no diagnostic), and ll_restrict
behaves as if the entry were absent. -/
theorem C6_nonexistent_path_skipped (env : Env) (cfg : Cfg) (fd : Int) (flags : Nat)
    (data fname : String) (rest : List String) (k : HelperKind)
    (hc : classify data = some (k, fname))
    (hne : env.pathExists fname = false) :
    ll_restrict_loop env fd (data :: rest) = ll_restrict_loop env fd rest ∧
    ll_restrict env { cfg with lprofile := data :: rest } fd flags =
      ll_restrict env { cfg with lprofile := rest } fd flags := by
  have hloop : ll_restrict_loop env fd (data :: rest) = ll_restrict_loop env fd rest := by
    simp only [ll_restrict_loop]
    rw [hc]
    simp [hne]
  exact ⟨hloop,
    ll_restrict_eq_of_loop env { cfg with lprofile := data :: rest }
      { cfg with lprofile := rest } fd flags hloop⟩

/-- Claim C6 witness: skipping the directive landlock.read /nope whose
path does not exist. -/
theorem C6_witness :
    ll_restrict_loop envMiss 3 ["landlock.read /nope"] = ll_restrict_loop envMiss 3 [] ∧
    ll_restrict envMiss { cfgHome with lprofile := ["landlock.read /nope"] } 3 0 =
      ll_restrict envMiss { cfgHome with lprofile := [] } 3 0 :=
  C6_nonexistent_path_skipped envMiss cfgHome 3 0 "landlock.read /nope" "/nope"
    [] HelperKind.read (by decide) (by decide)

/- Claim C2 (corrected). -/

/-- openedPaths distributes over trace concatenation. -/
theorem openedPaths_append (a b : List Event) :
    openedPaths (a ++ b) = openedPaths a ++ openedPaths b := by
  unfold openedPaths
  exact List.filterMap_append a b _

/-- On a supported kernel every helper runs without terminating, opens
exactly its path, and leaves the descriptor created when it was -1. -/
theorem runHelper_out (k : HelperKind) (env : Env) (fd : Int) (p : String)
    (hok : old_kernel env.release = ProbeResult.ok) :
    (runHelper k env fd p).term = false ∧
    openedPaths (runHelper k env fd p).tr = [p] ∧
    (runHelper k env fd p).fd = (if fd = -1 then env.createFd else fd) := by
  cases k <;>
    · simp only [runHelper, ll_read, ll_write, ll_special, ll_exec,
        ll_rule_add_eval _ env fd p hok]
      by_cases hfd : fd = -1 <;> simp [hfd, openedPaths]

/-- A conditional error diagnostic opens no path. -/
theorem openedPaths_err (c : Prop) [Decidable c] (f : String) :
    openedPaths (if c then [Event.errRule f] else []) = [] := by
  split <;> rfl

/-- A conditional error diagnostic opens no path (flipped branches). -/
theorem openedPaths_errFlip (c : Prop) [Decidable c] (f : String) :
    openedPaths (if c then [] else [Event.errRule f]) = [] := by
  split <;> rfl

/-- The commit events of ll_restrict open no path. -/
theorem openedPaths_commitFail (fd2 : Int) (flags : Nat) (r : Int) :
    openedPaths [Event.prctlNoNewPrivs, Event.restrictSelf fd2 flags r] = [] := rfl

/-- The commit events of a successful ll_restrict open no path. -/
theorem openedPaths_commitClose (fd2 : Int) (flags : Nat) (r : Int) :
    openedPaths [Event.prctlNoNewPrivs, Event.restrictSelf fd2 flags r,
      Event.closeFd fd2] = [] := rfl

/-- The ll_restrict walk opens, in list order, exactly the existing paths
of the recognized directives, and never terminates the process when every
directive is recognized. -/
theorem loop_opens (env : Env) (hok : old_kernel env.release = ProbeResult.ok) :
    ∀ (l : List String) (fd : Int), (∀ d ∈ l, (classify d).isSome = true) →
      openedPaths (ll_restrict_loop env fd l).tr = l.filterMap (directiveOpened env) ∧
      (ll_restrict_loop env fd l).term = false := by
  intro l
  induction l with
  | nil => intro fd _; exact ⟨rfl, rfl⟩
  | cons d rest ih =>
    intro fd hall
    have hd : (classify d).isSome = true := hall d (by simp)
    obtain ⟨⟨k, fname⟩, hk⟩ := Option.isSome_iff_exists.mp hd
    have hrest : ∀ x ∈ rest, (classify x).isSome = true :=
      fun x hx => hall x (by simp [hx])
    obtain ⟨ht, ho, hfd1⟩ := runHelper_out k env fd fname hok
    simp only [ll_restrict_loop]
    rw [hk]
    by_cases hex : env.pathExists fname = true
    · have hop : directiveOpened env d = some fname := by
        simp [directiveOpened, hk, hex]
      have ihA := ih (runHelper k env fd fname).fd hrest
      simp [hex, ht, hop, openedPaths_append, ho, openedPaths_err,
        openedPaths_errFlip, ihA.1, ihA.2, List.filterMap_cons]
    · have hexf : env.pathExists fname = false := by
        cases hval : env.pathExists fname with
        | true => exact absurd hval hex
        | false => rfl
      have hop : directiveOpened env d = none := by
        simp [directiveOpened, hk, hexf]
      simp only [hexf, Bool.false_eq_true, if_false, List.filterMap_cons, hop]
      exact ih fd hrest

/-- openedPaths of a full ll_restrict run is that of its directive walk:
the commit events open nothing. -/
theorem ll_restrict_opens (env : Env) (cfg : Cfg) (fd : Int) (flags : Nat)
    (hok : old_kernel env.release = ProbeResult.ok)
    (hall : ∀ d ∈ cfg.lprofile, (classify d).isSome = true) :
    openedPaths (ll_restrict env cfg fd flags).tr =
      cfg.lprofile.filterMap (directiveOpened env) := by
  obtain ⟨h1, h2⟩ := loop_opens env hok cfg.lprofile fd hall
  unfold ll_restrict
  rw [hok]
  simp only [h2, Bool.false_eq_true, if_false]
  by_cases hfd : (ll_restrict_loop env fd cfg.lprofile).fd = -1
  · simp [hfd, h1]
  · by_cases hr : env.restrictRet (ll_restrict_loop env fd cfg.lprofile).fd flags ≠ 0 <;>
      simp [hfd, hr, openedPaths_append, h1, openedPaths_commitFail,
        openedPaths_commitClose]

/-- ll_add_profile prepends on a supported kernel, so a sequence of calls
stores the directives in reverse order; the home directory is unchanged. -/
theorem addProfiles_lprofile (env : Env) (hok : old_kernel env.release = ProbeResult.ok) :
    ∀ (ds : List String) (cfg : Cfg),
      (addProfiles env cfg ds).lprofile = ds.reverse ++ cfg.lprofile := by
  intro ds
  induction ds with
  | nil => intro cfg; simp [addProfiles]
  | cons d rest ih =>
    intro cfg
    show (addProfiles env (ll_add_profile env cfg d).1 rest).lprofile = _
    unfold ll_add_profile
    rw [hok]
    rw [ih { cfg with lprofile := d :: cfg.lprofile }]
    simp

/-- Claim C2 counterexample: adding landlock.read /a then
landlock.write /b and applying the rules opens /b before /a - the reverse
of insertion order, not insertion order. -/
theorem C2_counterexample :
    openedPaths (ll_restrict envOk
        (addProfiles envOk cfgHome ["landlock.read /a", "landlock.write /b"])
        (-1) 0).tr = ["/b", "/a"] ∧
    openedPaths (ll_restrict envOk
        (addProfiles envOk cfgHome ["landlock.read /a", "landlock.write /b"])
        (-1) 0).tr ≠ ["/a", "/b"] := by
  decide

/-- Claim C2 (amended): ll_add_profile pushes each directive onto the
front of the list, so after calls d1..dn the stored list is dn..d1, and
the ll_restrict walk (front to back) processes the directives in reverse
insertion order, opening the existing recognized paths in that order. -/
theorem C2_profiles_processed_in_reverse_order
    (env : Env) (cfg : Cfg) (ds : List String) (fd : Int) (flags : Nat)
    (hok : old_kernel env.release = ProbeResult.ok)
    (hl : cfg.lprofile = [])
    (hall : ∀ d ∈ ds, (classify d).isSome = true) :
    (addProfiles env cfg ds).lprofile = ds.reverse ∧
    openedPaths (ll_restrict env (addProfiles env cfg ds) fd flags).tr =
      ds.reverse.filterMap (directiveOpened env) := by
  have h1 : (addProfiles env cfg ds).lprofile = ds.reverse := by
    rw [addProfiles_lprofile env hok ds cfg, hl, List.append_nil]
  refine ⟨h1, ?_⟩
  have hall2 : ∀ d ∈ (addProfiles env cfg ds).lprofile, (classify d).isSome = true := by
    rw [h1]
    intro d hd
    exact hall d (List.mem_reverse.mp hd)
  rw [ll_restrict_opens env (addProfiles env cfg ds) fd flags hok hall2, h1]

/-- Claim C2 witness: the amended theorem at two concrete directives. -/
theorem C2_witness :
    (addProfiles envOk cfgHome ["landlock.read /a", "landlock.write /b"]).lprofile
      = ["landlock.read /a", "landlock.write /b"].reverse ∧
    openedPaths (ll_restrict envOk
        (addProfiles envOk cfgHome ["landlock.read /a", "landlock.write /b"])
        (-1) 0).tr
      = ["landlock.read /a", "landlock.write /b"].reverse.filterMap
          (directiveOpened envOk) :=
  C2_profiles_processed_in_reverse_order envOk cfgHome
    ["landlock.read /a", "landlock.write /b"] (-1) 0 (by decide) rfl (by decide)

/- Claim C3 (corrected). -/

/-- openedPaths ignores an empty trace. -/
theorem openedPaths_nil : openedPaths [] = [] := rfl

/-- openedPaths ignores a ruleset-creation event. -/
theorem openedPaths_cons_create (m : Nat) (r : Int) (tr : List Event) :
    openedPaths (Event.createRuleset m r :: tr) = openedPaths tr := rfl

/-- openedPaths records an open event. -/
theorem openedPaths_cons_open (p : String) (r : Int) (tr : List Event) :
    openedPaths (Event.openPath p r :: tr) = p :: openedPaths tr := rfl

/-- openedPaths ignores an add-rule event. -/
theorem openedPaths_cons_add (a b : Int) (m : Nat) (r : Int) (tr : List Event) :
    openedPaths (Event.addRule a b m r :: tr) = openedPaths tr := rfl

/-- openedPaths ignores a close event. -/
theorem openedPaths_cons_close (a : Int) (tr : List Event) :
    openedPaths (Event.closeFd a :: tr) = openedPaths tr := rfl

/-- openedPaths ignores a basic-policy error diagnostic. -/
theorem openedPaths_cons_errB (tr : List Event) :
    openedPaths (Event.errBasic :: tr) = openedPaths tr := rfl

/-- A conditional basic-policy error diagnostic opens no path. -/
theorem openedPaths_errB (c : Prop) [Decidable c] :
    openedPaths (if c then [Event.errBasic] else []) = [] := by
  split <;> rfl

/-- A conditional basic-policy error diagnostic opens no path (flipped). -/
theorem openedPaths_errBFlip (c : Prop) [Decidable c] :
    openedPaths (if c then [] else [Event.errBasic]) = [] := by
  split <;> rfl

/-- Claim C3 counterexample: when every landlock_add_rule call fails,
ll_basic_system opens only the home directory and the slash of the first
chain call: the 25 remaining hard-coded items, /tmp among them, are never
attempted, because the OR-chain short-circuits on the first failure. -/
theorem C3_counterexample :
    openedPaths (ll_basic_system envFail cfgHome (-1)).tr = ["/home/u", "/"] ∧
    "/tmp" ∉ openedPaths (ll_basic_system envFail cfgHome (-1)).tr ∧
    (HelperKind.write, "/tmp") ∈
      basicChainItems ("/run/user/" ++ toString envFail.uid) := by
  decide

/-- A conditional ruleset-creation event opens no path. -/
theorem openedPaths_ifCreate (c : Prop) [Decidable c] (m : Nat) (r : Int) :
    openedPaths (if c then [Event.createRuleset m r] else []) = [] := by
  split <;> rfl

/-- errBasicCount distributes over trace concatenation. -/
theorem errBasicCount_append (a b : List Event) :
    errBasicCount (a ++ b) = errBasicCount a + errBasicCount b := by
  simp [errBasicCount, List.filter_append]

/-- A conditional basic-policy error diagnostic counts via its condition. -/
theorem errBasicCount_if (c : Prop) [Decidable c] :
    errBasicCount (if c then [Event.errBasic] else []) = if c then 1 else 0 := by
  split <;> rfl

/-- errBasicCount of a conditional diagnostic, flipped branches. -/
theorem errBasicCount_ifFlip (c : Prop) [Decidable c] :
    errBasicCount (if c then [] else [Event.errBasic]) = if c then 0 else 1 := by
  split <;> rfl

/-- A conditional ruleset-creation event carries no diagnostic. -/
theorem errBasicCount_ifCreate (c : Prop) [Decidable c] (m : Nat) (r : Int) :
    errBasicCount (if c then [Event.createRuleset m r] else []) = 0 := by
  split <;> rfl

/-- errBasicCount of an empty trace. -/
theorem errBasicCount_nil : errBasicCount [] = 0 := rfl

/-- errBasicCount ignores an open event. -/
theorem errBasicCount_cons_open (p : String) (r : Int) (tr : List Event) :
    errBasicCount (Event.openPath p r :: tr) = errBasicCount tr := rfl

/-- errBasicCount ignores an add-rule event. -/
theorem errBasicCount_cons_add (a b : Int) (m : Nat) (r : Int) (tr : List Event) :
    errBasicCount (Event.addRule a b m r :: tr) = errBasicCount tr := rfl

/-- errBasicCount ignores a close event. -/
theorem errBasicCount_cons_close (a : Int) (tr : List Event) :
    errBasicCount (Event.closeFd a :: tr) = errBasicCount tr := rfl

/-- errBasicCount records a basic-policy error diagnostic. -/
theorem errBasicCount_cons_errB (tr : List Event) :
    errBasicCount (Event.errBasic :: tr) = errBasicCount tr + 1 := rfl

/-- Every call of a chain computes its result at the stable descriptor:
only the first call can change it, to a value the update then fixes. -/
theorem chainRet_stable (env : Env) (fd : Int) (q : HelperKind × String) :
    chainRet env (if fd = -1 then env.createFd else fd) q = chainRet env fd q := by
  unfold chainRet
  by_cases h : fd = -1 <;> simp [h]

/-- On a supported kernel a helper returns its chainRet value and logs no
basic-policy diagnostic. -/
theorem runHelper_ret (k : HelperKind) (env : Env) (fd : Int) (p : String)
    (hok : old_kernel env.release = ProbeResult.ok) :
    (runHelper k env fd p).ret = chainRet env fd (k, p) ∧
    errBasicCount (runHelper k env fd p).tr = 0 := by
  cases k <;>
    · simp only [runHelper, ll_read, ll_write, ll_special, ll_exec,
        ll_rule_add_eval _ env fd p hok]
      by_cases hfd : fd = -1 <;>
        simp [hfd, chainRet, helperMask, errBasicCount, isErrBasic]

/-- An all-zero chain runs every item: each path is opened in order, the
chain reports no failure and itself logs nothing. -/
theorem runChain_all_ok (env : Env) (hok : old_kernel env.release = ProbeResult.ok) :
    ∀ (items : List (HelperKind × String)) (fd : Int),
      (∀ q ∈ items, chainRet env fd q = 0) →
      (runChain env fd items).ret = false ∧
      openedPaths (runChain env fd items).tr = items.map Prod.snd ∧
      errBasicCount (runChain env fd items).tr = 0 ∧
      (runChain env fd items).term = false := by
  intro items
  induction items with
  | nil => intro fd _; exact ⟨rfl, rfl, rfl, rfl⟩
  | cons q rest ih =>
    intro fd hall
    obtain ⟨k, p⟩ := q
    obtain ⟨hterm, hopen, hfd1⟩ := runHelper_out k env fd p hok
    obtain ⟨hret, herrb⟩ := runHelper_ret k env fd p hok
    have hq0 : chainRet env fd (k, p) = 0 := hall (k, p) (by simp)
    have hrest : ∀ x ∈ rest, chainRet env (runHelper k env fd p).fd x = 0 := by
      intro x hx
      rw [hfd1, chainRet_stable]
      exact hall x (by simp [hx])
    obtain ⟨ih1, ih2, ih3, ih4⟩ := ih (runHelper k env fd p).fd hrest
    simp [runChain, hterm, hret, hq0, hopen, herrb, openedPaths_append,
      errBasicCount_append, ih1, ih2, ih3, ih4]

/-- A chain whose items before some position all succeed and whose item
at that position fails stops there: the failing item is the last one
opened, every later item is skipped, the chain reports failure, and the
chain itself logs nothing. -/
theorem runChain_fail_at (env : Env) (hok : old_kernel env.release = ProbeResult.ok) :
    ∀ (pre : List (HelperKind × String)) (fd : Int) (k : HelperKind) (p : String)
      (post : List (HelperKind × String)),
      (∀ q ∈ pre, chainRet env fd q = 0) →
      chainRet env fd (k, p) ≠ 0 →
      (runChain env fd (pre ++ (k, p) :: post)).ret = true ∧
      openedPaths (runChain env fd (pre ++ (k, p) :: post)).tr =
        pre.map Prod.snd ++ [p] ∧
      errBasicCount (runChain env fd (pre ++ (k, p) :: post)).tr = 0 ∧
      (runChain env fd (pre ++ (k, p) :: post)).term = false := by
  intro pre
  induction pre with
  | nil =>
    intro fd k p post _ hfail
    obtain ⟨hterm, hopen, hfd1⟩ := runHelper_out k env fd p hok
    obtain ⟨hret, herrb⟩ := runHelper_ret k env fd p hok
    simp [runChain, hterm, hret, hfail, hopen, herrb]
  | cons q pre2 ih =>
    intro fd k p post hpre hfail
    obtain ⟨kq, pq⟩ := q
    obtain ⟨hterm, hopen, hfd1⟩ := runHelper_out kq env fd pq hok
    obtain ⟨hret, herrb⟩ := runHelper_ret kq env fd pq hok
    have hq0 : chainRet env fd (kq, pq) = 0 := hpre (kq, pq) (by simp)
    have hpre2 : ∀ x ∈ pre2, chainRet env (runHelper kq env fd pq).fd x = 0 := by
      intro x hx
      rw [hfd1, chainRet_stable]
      exact hpre x (by simp [hx])
    have hfail2 : chainRet env (runHelper kq env fd pq).fd (k, p) ≠ 0 := by
      rw [hfd1, chainRet_stable]
      exact hfail
    obtain ⟨ih1, ih2, ih3, ih4⟩ := ih (runHelper kq env fd pq).fd k p post hpre2 hfail2
    simp [runChain, hterm, hret, hq0, hopen, herrb, openedPaths_append,
      errBasicCount_append, ih1, ih2, ih3, ih4]

/-- The trace of ll_basic_system on a supported kernel: optional lazy
creation, the home-directory rule with its conditionally logged error,
then the chain trace with one conditionally logged chain error. -/
theorem ll_basic_system_trace (env : Env) (cfg : Cfg) (fd : Int)
    (hok : old_kernel env.release = ProbeResult.ok) :
    (ll_basic_system env cfg fd).tr =
      (if fd = -1 then [Event.createRuleset ll_full_mask env.createFd] else []) ++
      ([Event.openPath cfg.homedir (env.openFd cfg.homedir),
        Event.addRule (if fd = -1 then env.createFd else fd)
          (env.openFd cfg.homedir) ll_home_mask
          (env.addRuleRet (if fd = -1 then env.createFd else fd)
            (env.openFd cfg.homedir) ll_home_mask)] ++
       (if env.addRuleRet (if fd = -1 then env.createFd else fd)
            (env.openFd cfg.homedir) ll_home_mask ≠ 0
        then [Event.errBasic] else []) ++
       [Event.closeFd (env.openFd cfg.homedir)]) ++
      ((runChain env (if fd = -1 then env.createFd else fd)
          (basicChainItems ("/run/user/" ++ toString env.uid))).tr ++
       (if (runChain env (if fd = -1 then env.createFd else fd)
            (basicChainItems ("/run/user/" ++ toString env.uid))).term then []
        else if (runChain env (if fd = -1 then env.createFd else fd)
            (basicChainItems ("/run/user/" ++ toString env.uid))).ret = true
        then [Event.errBasic] else [])) := by
  unfold ll_basic_system
  rw [hok]
  rfl

/-- Claim C3 (amended): the home-directory rule failure is only logged,
but the hard-coded list is evaluated as a short-circuiting OR-chain: a
non-zero return from any helper in the chain, at any position, skips
every remaining helper call, and exactly one chain error is logged (in
addition to an independently logged home-directory error); only on an
all-zero chain is every path in the list attempted, and then no chain
error is logged. -/
theorem C3_baseline_chain_short_circuits (env : Env) (cfg : Cfg) (fd : Int)
    (hok : old_kernel env.release = ProbeResult.ok) :
    (∀ (pre : List (HelperKind × String)) (k : HelperKind) (p : String)
       (post : List (HelperKind × String)),
      basicChainItems ("/run/user/" ++ toString env.uid) = pre ++ (k, p) :: post →
      (∀ q ∈ pre, chainRet env fd q = 0) →
      chainRet env fd (k, p) ≠ 0 →
      openedPaths (ll_basic_system env cfg fd).tr =
        cfg.homedir :: (pre.map Prod.snd ++ [p]) ∧
      errBasicCount (ll_basic_system env cfg fd).tr =
        (if env.addRuleRet (if fd = -1 then env.createFd else fd)
            (env.openFd cfg.homedir) ll_home_mask ≠ 0 then 1 else 0) + 1) ∧
    ((∀ q ∈ basicChainItems ("/run/user/" ++ toString env.uid),
        chainRet env fd q = 0) →
      openedPaths (ll_basic_system env cfg fd).tr =
        cfg.homedir ::
          (basicChainItems ("/run/user/" ++ toString env.uid)).map Prod.snd ∧
      errBasicCount (ll_basic_system env cfg fd).tr =
        (if env.addRuleRet (if fd = -1 then env.createFd else fd)
            (env.openFd cfg.homedir) ll_home_mask ≠ 0 then 1 else 0)) := by
  constructor
  · intro pre k p post hsplit hpre hfail
    have hpre2 : ∀ q ∈ pre,
        chainRet env (if fd = -1 then env.createFd else fd) q = 0 := by
      intro q hq
      rw [chainRet_stable]
      exact hpre q hq
    have hfail2 : chainRet env (if fd = -1 then env.createFd else fd) (k, p) ≠ 0 := by
      rw [chainRet_stable]
      exact hfail
    obtain ⟨h1, h2, h3, h4⟩ := runChain_fail_at env hok pre
      (if fd = -1 then env.createFd else fd) k p post hpre2 hfail2
    rw [ll_basic_system_trace env cfg fd hok, hsplit]
    constructor
    · simp [openedPaths_append, openedPaths_cons_open, openedPaths_cons_add,
        openedPaths_cons_close, openedPaths_cons_errB, openedPaths_nil,
        openedPaths_errB, openedPaths_errBFlip, openedPaths_ifCreate,
        h1, h2, h4]
    · by_cases hh : env.addRuleRet (if fd = -1 then env.createFd else fd)
          (env.openFd cfg.homedir) ll_home_mask ≠ 0 <;>
        simp [hh, errBasicCount_append, errBasicCount_if, errBasicCount_ifFlip,
          errBasicCount_ifCreate, errBasicCount_nil, errBasicCount_cons_open,
          errBasicCount_cons_add, errBasicCount_cons_close,
          errBasicCount_cons_errB, h1, h3, h4]
  · intro hall
    have hall2 : ∀ q ∈ basicChainItems ("/run/user/" ++ toString env.uid),
        chainRet env (if fd = -1 then env.createFd else fd) q = 0 := by
      intro q hq
      rw [chainRet_stable]
      exact hall q hq
    obtain ⟨h1, h2, h3, h4⟩ := runChain_all_ok env hok
      (basicChainItems ("/run/user/" ++ toString env.uid))
      (if fd = -1 then env.createFd else fd) hall2
    rw [ll_basic_system_trace env cfg fd hok]
    constructor
    · simp [openedPaths_append, openedPaths_cons_open, openedPaths_cons_add,
        openedPaths_cons_close, openedPaths_cons_errB, openedPaths_nil,
        openedPaths_errB, openedPaths_errBFlip, openedPaths_ifCreate,
        h1, h2, h4]
    · by_cases hh : env.addRuleRet (if fd = -1 then env.createFd else fd)
          (env.openFd cfg.homedir) ll_home_mask ≠ 0 <;>
        simp [hh, errBasicCount_append, errBasicCount_if, errBasicCount_ifFlip,
          errBasicCount_ifCreate, errBasicCount_nil, errBasicCount_cons_open,
          errBasicCount_cons_add, errBasicCount_cons_close,
          errBasicCount_cons_errB, h1, h3, h4]

/-- Claim C3 witness: in an environment where exactly the add-rule call
for /tmp (the third chain item) fails, ll_basic_system opens the home
directory, the two root items and /tmp, skips the 23 remaining items,
and logs exactly one chain error (the home rule succeeded, so its
conditional error contributes 0). -/
theorem C3_witness :
    openedPaths (ll_basic_system envMid cfgHome (-1)).tr =
      cfgHome.homedir ::
        ([(HelperKind.read, "/"), (HelperKind.special, "/")].map Prod.snd ++
          ["/tmp"]) ∧
    errBasicCount (ll_basic_system envMid cfgHome (-1)).tr =
      (if envMid.addRuleRet
          (if (-1 : Int) = -1 then envMid.createFd else (-1 : Int))
          (envMid.openFd cfgHome.homedir) ll_home_mask ≠ 0 then 1 else 0) + 1 :=
  (C3_baseline_chain_short_circuits envMid cfgHome (-1) (by decide)).1
    [(HelperKind.read, "/"), (HelperKind.special, "/")] HelperKind.write "/tmp"
    ((basicChainItems "/run/user/1000").drop 3)
    (by decide) (by decide) (by decide)

/- Claim C8 (confirmed). -/

/-- Claim C8: on a supported kernel each per-class helper submits exactly
one rule, whose access mask is exactly the fixed bitmask of its class:
Read = read-file and read-dir; Write = write-file, remove-file,
remove-dir, make-char, make-dir, make-reg, make-sym; Special = make-sock,
make-fifo, make-block; Execute = execute. -/
theorem C8_helper_masks_exact (env : Env) (fd : Int) (p : String)
    (hok : old_kernel env.release = ProbeResult.ok) :
    ruleMasks (ll_read env fd p).tr =
      [LANDLOCK_ACCESS_FS_READ_FILE ||| LANDLOCK_ACCESS_FS_READ_DIR] ∧
    ruleMasks (ll_write env fd p).tr =
      [LANDLOCK_ACCESS_FS_WRITE_FILE ||| LANDLOCK_ACCESS_FS_REMOVE_FILE |||
       LANDLOCK_ACCESS_FS_REMOVE_DIR ||| LANDLOCK_ACCESS_FS_MAKE_CHAR |||
       LANDLOCK_ACCESS_FS_MAKE_DIR ||| LANDLOCK_ACCESS_FS_MAKE_REG |||
       LANDLOCK_ACCESS_FS_MAKE_SYM] ∧
    ruleMasks (ll_special env fd p).tr =
      [LANDLOCK_ACCESS_FS_MAKE_SOCK ||| LANDLOCK_ACCESS_FS_MAKE_FIFO |||
       LANDLOCK_ACCESS_FS_MAKE_BLOCK] ∧
    ruleMasks (ll_exec env fd p).tr = [LANDLOCK_ACCESS_FS_EXECUTE] := by
  refine ⟨?_, ?_, ?_, ?_⟩ <;>
    · simp only [ll_read, ll_write, ll_special, ll_exec,
        ll_rule_add_eval _ env fd p hok]
      by_cases hfd : fd = -1 <;> simp [hfd, ruleMasks]

/-- Claim C8 witness: the helper masks at a concrete environment. -/
theorem C8_witness :
    ruleMasks (ll_read envOk 3 "/x").tr =
      [LANDLOCK_ACCESS_FS_READ_FILE ||| LANDLOCK_ACCESS_FS_READ_DIR] ∧
    ruleMasks (ll_write envOk 3 "/x").tr =
      [LANDLOCK_ACCESS_FS_WRITE_FILE ||| LANDLOCK_ACCESS_FS_REMOVE_FILE |||
       LANDLOCK_ACCESS_FS_REMOVE_DIR ||| LANDLOCK_ACCESS_FS_MAKE_CHAR |||
       LANDLOCK_ACCESS_FS_MAKE_DIR ||| LANDLOCK_ACCESS_FS_MAKE_REG |||
       LANDLOCK_ACCESS_FS_MAKE_SYM] ∧
    ruleMasks (ll_special envOk 3 "/x").tr =
      [LANDLOCK_ACCESS_FS_MAKE_SOCK ||| LANDLOCK_ACCESS_FS_MAKE_FIFO |||
       LANDLOCK_ACCESS_FS_MAKE_BLOCK] ∧
    ruleMasks (ll_exec envOk 3 "/x").tr = [LANDLOCK_ACCESS_FS_EXECUTE] :=
  C8_helper_masks_exact envOk 3 "/x" (by decide)

/- Claim C9 (confirmed). -/

/-- Claim C9: each helper creates the ruleset lazily - exactly one
creation, with mask ll_full_mask, when the descriptor is -1, and none
when a descriptor is already open - and the mask declared at creation
contains every access bit any helper can later submit (it is the union
of the thirteen listed bits, and each helper mask is a subset of it). -/
theorem C9_lazy_creation_and_mask_superset (env : Env) (fd : Int) (p : String)
    (hok : old_kernel env.release = ProbeResult.ok) :
    (createdRulesets (ll_read env fd p).tr =
      (if fd = -1 then [ll_full_mask] else [])) ∧
    ((ll_read env fd p).fd = (if fd = -1 then env.createFd else fd)) ∧
    (createdRulesets (ll_write env fd p).tr =
      (if fd = -1 then [ll_full_mask] else [])) ∧
    ((ll_write env fd p).fd = (if fd = -1 then env.createFd else fd)) ∧
    (createdRulesets (ll_special env fd p).tr =
      (if fd = -1 then [ll_full_mask] else [])) ∧
    ((ll_special env fd p).fd = (if fd = -1 then env.createFd else fd)) ∧
    (createdRulesets (ll_exec env fd p).tr =
      (if fd = -1 then [ll_full_mask] else [])) ∧
    ((ll_exec env fd p).fd = (if fd = -1 then env.createFd else fd)) ∧
    ((LANDLOCK_ACCESS_FS_READ_FILE ||| LANDLOCK_ACCESS_FS_READ_DIR) |||
      ll_full_mask = ll_full_mask) ∧
    ((LANDLOCK_ACCESS_FS_WRITE_FILE ||| LANDLOCK_ACCESS_FS_REMOVE_FILE |||
      LANDLOCK_ACCESS_FS_REMOVE_DIR ||| LANDLOCK_ACCESS_FS_MAKE_CHAR |||
      LANDLOCK_ACCESS_FS_MAKE_DIR ||| LANDLOCK_ACCESS_FS_MAKE_REG |||
      LANDLOCK_ACCESS_FS_MAKE_SYM) ||| ll_full_mask = ll_full_mask) ∧
    ((LANDLOCK_ACCESS_FS_MAKE_SOCK ||| LANDLOCK_ACCESS_FS_MAKE_FIFO |||
      LANDLOCK_ACCESS_FS_MAKE_BLOCK) ||| ll_full_mask = ll_full_mask) ∧
    (LANDLOCK_ACCESS_FS_EXECUTE ||| ll_full_mask = ll_full_mask) ∧
    (LANDLOCK_ACCESS_FS_READ_FILE ||| ll_full_mask = ll_full_mask) ∧
    (LANDLOCK_ACCESS_FS_READ_DIR ||| ll_full_mask = ll_full_mask) ∧
    (LANDLOCK_ACCESS_FS_WRITE_FILE ||| ll_full_mask = ll_full_mask) ∧
    (LANDLOCK_ACCESS_FS_REMOVE_FILE ||| ll_full_mask = ll_full_mask) ∧
    (LANDLOCK_ACCESS_FS_REMOVE_DIR ||| ll_full_mask = ll_full_mask) ∧
    (LANDLOCK_ACCESS_FS_MAKE_CHAR ||| ll_full_mask = ll_full_mask) ∧
    (LANDLOCK_ACCESS_FS_MAKE_DIR ||| ll_full_mask = ll_full_mask) ∧
    (LANDLOCK_ACCESS_FS_MAKE_REG ||| ll_full_mask = ll_full_mask) ∧
    (LANDLOCK_ACCESS_FS_MAKE_SOCK ||| ll_full_mask = ll_full_mask) ∧
    (LANDLOCK_ACCESS_FS_MAKE_FIFO ||| ll_full_mask = ll_full_mask) ∧
    (LANDLOCK_ACCESS_FS_MAKE_BLOCK ||| ll_full_mask = ll_full_mask) ∧
    (LANDLOCK_ACCESS_FS_MAKE_SYM ||| ll_full_mask = ll_full_mask) := by
  refine ⟨?_, ?_, ?_, ?_, ?_, ?_, ?_, ?_, by decide⟩ <;>
    · simp only [ll_read, ll_write, ll_special, ll_exec,
        ll_rule_add_eval _ env fd p hok]
      by_cases hfd : fd = -1 <;> simp [hfd, createdRulesets]

/-- Claim C9 witness: the lazy-creation conjunction at a concrete
environment with an uninitialized descriptor. -/
theorem C9_witness :
    (createdRulesets (ll_read envOk (-1) "/x").tr =
      (if (-1 : Int) = -1 then [ll_full_mask] else [])) ∧
    ((ll_read envOk (-1) "/x").fd =
      (if (-1 : Int) = -1 then envOk.createFd else (-1 : Int))) ∧
    (createdRulesets (ll_write envOk (-1) "/x").tr =
      (if (-1 : Int) = -1 then [ll_full_mask] else [])) ∧
    ((ll_write envOk (-1) "/x").fd =
      (if (-1 : Int) = -1 then envOk.createFd else (-1 : Int))) ∧
    (createdRulesets (ll_special envOk (-1) "/x").tr =
      (if (-1 : Int) = -1 then [ll_full_mask] else [])) ∧
    ((ll_special envOk (-1) "/x").fd =
      (if (-1 : Int) = -1 then envOk.createFd else (-1 : Int))) ∧
    (createdRulesets (ll_exec envOk (-1) "/x").tr =
      (if (-1 : Int) = -1 then [ll_full_mask] else [])) ∧
    ((ll_exec envOk (-1) "/x").fd =
      (if (-1 : Int) = -1 then envOk.createFd else (-1 : Int))) ∧
    ((LANDLOCK_ACCESS_FS_READ_FILE ||| LANDLOCK_ACCESS_FS_READ_DIR) |||
      ll_full_mask = ll_full_mask) ∧
    ((LANDLOCK_ACCESS_FS_WRITE_FILE ||| LANDLOCK_ACCESS_FS_REMOVE_FILE |||
      LANDLOCK_ACCESS_FS_REMOVE_DIR ||| LANDLOCK_ACCESS_FS_MAKE_CHAR |||
      LANDLOCK_ACCESS_FS_MAKE_DIR ||| LANDLOCK_ACCESS_FS_MAKE_REG |||
      LANDLOCK_ACCESS_FS_MAKE_SYM) ||| ll_full_mask = ll_full_mask) ∧
    ((LANDLOCK_ACCESS_FS_MAKE_SOCK ||| LANDLOCK_ACCESS_FS_MAKE_FIFO |||
      LANDLOCK_ACCESS_FS_MAKE_BLOCK) ||| ll_full_mask = ll_full_mask) ∧
    (LANDLOCK_ACCESS_FS_EXECUTE ||| ll_full_mask = ll_full_mask) ∧
    (LANDLOCK_ACCESS_FS_READ_FILE ||| ll_full_mask = ll_full_mask) ∧
    (LANDLOCK_ACCESS_FS_READ_DIR ||| ll_full_mask = ll_full_mask) ∧
    (LANDLOCK_ACCESS_FS_WRITE_FILE ||| ll_full_mask = ll_full_mask) ∧
    (LANDLOCK_ACCESS_FS_REMOVE_FILE ||| ll_full_mask = ll_full_mask) ∧
    (LANDLOCK_ACCESS_FS_REMOVE_DIR ||| ll_full_mask = ll_full_mask) ∧
    (LANDLOCK_ACCESS_FS_MAKE_CHAR ||| ll_full_mask = ll_full_mask) ∧
    (LANDLOCK_ACCESS_FS_MAKE_DIR ||| ll_full_mask = ll_full_mask) ∧
    (LANDLOCK_ACCESS_FS_MAKE_REG ||| ll_full_mask = ll_full_mask) ∧
    (LANDLOCK_ACCESS_FS_MAKE_SOCK ||| ll_full_mask = ll_full_mask) ∧
    (LANDLOCK_ACCESS_FS_MAKE_FIFO ||| ll_full_mask = ll_full_mask) ∧
    (LANDLOCK_ACCESS_FS_MAKE_BLOCK ||| ll_full_mask = ll_full_mask) ∧
    (LANDLOCK_ACCESS_FS_MAKE_SYM ||| ll_full_mask = ll_full_mask) :=
  C9_lazy_creation_and_mask_superset envOk (-1) "/x" (by decide)

/- Claim C10 (confirmed). -/

/-- Claim C10: no helper checks the open(2) result: when open fails with
-1, each helper still submits the rule with parent descriptor -1, still
closes that descriptor, and returns exactly the add-rule result, so an
unopenable path surfaces only through that result. -/
theorem C10_open_failure_unchecked (env : Env) (fd : Int) (p : String)
    (hok : old_kernel env.release = ProbeResult.ok)
    (hopen : env.openFd p = -1) :
    ((ll_read env fd p).ret = env.addRuleRet (if fd = -1 then env.createFd else fd)
      (-1) (LANDLOCK_ACCESS_FS_READ_FILE ||| LANDLOCK_ACCESS_FS_READ_DIR)) ∧
    (Event.addRule (if fd = -1 then env.createFd else fd) (-1)
      (LANDLOCK_ACCESS_FS_READ_FILE ||| LANDLOCK_ACCESS_FS_READ_DIR)
      ((ll_read env fd p).ret) ∈ (ll_read env fd p).tr) ∧
    (Event.closeFd (-1) ∈ (ll_read env fd p).tr) ∧
    ((ll_write env fd p).ret = env.addRuleRet (if fd = -1 then env.createFd else fd)
      (-1) (LANDLOCK_ACCESS_FS_WRITE_FILE ||| LANDLOCK_ACCESS_FS_REMOVE_FILE |||
        LANDLOCK_ACCESS_FS_REMOVE_DIR ||| LANDLOCK_ACCESS_FS_MAKE_CHAR |||
        LANDLOCK_ACCESS_FS_MAKE_DIR ||| LANDLOCK_ACCESS_FS_MAKE_REG |||
        LANDLOCK_ACCESS_FS_MAKE_SYM)) ∧
    (Event.addRule (if fd = -1 then env.createFd else fd) (-1)
      (LANDLOCK_ACCESS_FS_WRITE_FILE ||| LANDLOCK_ACCESS_FS_REMOVE_FILE |||
        LANDLOCK_ACCESS_FS_REMOVE_DIR ||| LANDLOCK_ACCESS_FS_MAKE_CHAR |||
        LANDLOCK_ACCESS_FS_MAKE_DIR ||| LANDLOCK_ACCESS_FS_MAKE_REG |||
        LANDLOCK_ACCESS_FS_MAKE_SYM)
      ((ll_write env fd p).ret) ∈ (ll_write env fd p).tr) ∧
    (Event.closeFd (-1) ∈ (ll_write env fd p).tr) ∧
    ((ll_special env fd p).ret = env.addRuleRet (if fd = -1 then env.createFd else fd)
      (-1) (LANDLOCK_ACCESS_FS_MAKE_SOCK ||| LANDLOCK_ACCESS_FS_MAKE_FIFO |||
        LANDLOCK_ACCESS_FS_MAKE_BLOCK)) ∧
    (Event.addRule (if fd = -1 then env.createFd else fd) (-1)
      (LANDLOCK_ACCESS_FS_MAKE_SOCK ||| LANDLOCK_ACCESS_FS_MAKE_FIFO |||
        LANDLOCK_ACCESS_FS_MAKE_BLOCK)
      ((ll_special env fd p).ret) ∈ (ll_special env fd p).tr) ∧
    (Event.closeFd (-1) ∈ (ll_special env fd p).tr) ∧
    ((ll_exec env fd p).ret = env.addRuleRet (if fd = -1 then env.createFd else fd)
      (-1) LANDLOCK_ACCESS_FS_EXECUTE) ∧
    (Event.addRule (if fd = -1 then env.createFd else fd) (-1)
      LANDLOCK_ACCESS_FS_EXECUTE
      ((ll_exec env fd p).ret) ∈ (ll_exec env fd p).tr) ∧
    (Event.closeFd (-1) ∈ (ll_exec env fd p).tr) := by
  refine ⟨?_, ?_, ?_, ?_, ?_, ?_, ?_, ?_, ?_, ?_, ?_, ?_⟩ <;>
    · simp only [ll_read, ll_write, ll_special, ll_exec,
        ll_rule_add_eval _ env fd p hok]
      by_cases hfd : fd = -1 <;> simp [hfd, hopen]

/-- Claim C10 witness: a concrete environment whose open(2) always
fails. -/
theorem C10_witness :
    ((ll_read envNoOpen 3 "/x").ret = envNoOpen.addRuleRet
      (if (3 : Int) = -1 then envNoOpen.createFd else (3 : Int))
      (-1) (LANDLOCK_ACCESS_FS_READ_FILE ||| LANDLOCK_ACCESS_FS_READ_DIR)) ∧
    (Event.addRule (if (3 : Int) = -1 then envNoOpen.createFd else (3 : Int)) (-1)
      (LANDLOCK_ACCESS_FS_READ_FILE ||| LANDLOCK_ACCESS_FS_READ_DIR)
      ((ll_read envNoOpen 3 "/x").ret) ∈ (ll_read envNoOpen 3 "/x").tr) ∧
    (Event.closeFd (-1) ∈ (ll_read envNoOpen 3 "/x").tr) ∧
    ((ll_write envNoOpen 3 "/x").ret = envNoOpen.addRuleRet
      (if (3 : Int) = -1 then envNoOpen.createFd else (3 : Int))
      (-1) (LANDLOCK_ACCESS_FS_WRITE_FILE ||| LANDLOCK_ACCESS_FS_REMOVE_FILE |||
        LANDLOCK_ACCESS_FS_REMOVE_DIR ||| LANDLOCK_ACCESS_FS_MAKE_CHAR |||
        LANDLOCK_ACCESS_FS_MAKE_DIR ||| LANDLOCK_ACCESS_FS_MAKE_REG |||
        LANDLOCK_ACCESS_FS_MAKE_SYM)) ∧
    (Event.addRule (if (3 : Int) = -1 then envNoOpen.createFd else (3 : Int)) (-1)
      (LANDLOCK_ACCESS_FS_WRITE_FILE ||| LANDLOCK_ACCESS_FS_REMOVE_FILE |||
        LANDLOCK_ACCESS_FS_REMOVE_DIR ||| LANDLOCK_ACCESS_FS_MAKE_CHAR |||
        LANDLOCK_ACCESS_FS_MAKE_DIR ||| LANDLOCK_ACCESS_FS_MAKE_REG |||
        LANDLOCK_ACCESS_FS_MAKE_SYM)
      ((ll_write envNoOpen 3 "/x").ret) ∈ (ll_write envNoOpen 3 "/x").tr) ∧
    (Event.closeFd (-1) ∈ (ll_write envNoOpen 3 "/x").tr) ∧
    ((ll_special envNoOpen 3 "/x").ret = envNoOpen.addRuleRet
      (if (3 : Int) = -1 then envNoOpen.createFd else (3 : Int))
      (-1) (LANDLOCK_ACCESS_FS_MAKE_SOCK ||| LANDLOCK_ACCESS_FS_MAKE_FIFO |||
        LANDLOCK_ACCESS_FS_MAKE_BLOCK)) ∧
    (Event.addRule (if (3 : Int) = -1 then envNoOpen.createFd else (3 : Int)) (-1)
      (LANDLOCK_ACCESS_FS_MAKE_SOCK ||| LANDLOCK_ACCESS_FS_MAKE_FIFO |||
        LANDLOCK_ACCESS_FS_MAKE_BLOCK)
      ((ll_special envNoOpen 3 "/x").ret) ∈ (ll_special envNoOpen 3 "/x").tr) ∧
    (Event.closeFd (-1) ∈ (ll_special envNoOpen 3 "/x").tr) ∧
    ((ll_exec envNoOpen 3 "/x").ret = envNoOpen.addRuleRet
      (if (3 : Int) = -1 then envNoOpen.createFd else (3 : Int))
      (-1) LANDLOCK_ACCESS_FS_EXECUTE) ∧
    (Event.addRule (if (3 : Int) = -1 then envNoOpen.createFd else (3 : Int)) (-1)
      LANDLOCK_ACCESS_FS_EXECUTE
      ((ll_exec envNoOpen 3 "/x").ret) ∈ (ll_exec envNoOpen 3 "/x").tr) ∧
    (Event.closeFd (-1) ∈ (ll_exec envNoOpen 3 "/x").tr) :=
  C10_open_failure_unchecked envNoOpen 3 "/x" (by decide) rfl
